import Mathlib

/-
Shallow embedding of the circle-loiter controller `AuraCircleMgr`
(src/src/control/circle_mgr.cxx).  C doubles are modelled as real numbers;
the property tree (blackboard) is modelled as a record of the leaves bound
by `AuraCircleMgr::bind`; the geodesic collaborator
`SGWayPoint::CourseAndDistance` (control/waypoint.hxx, outside this
repository) is a function parameter.  The `#if 0` descent block in the
source is compiled out and is not modelled.
-/

namespace CircleMgr

/-- Blackboard (property-tree) leaves bound by `AuraCircleMgr::bind`
(circle_mgr.cxx:88-150), plus `wind_est`, the wind-estimate leaf maintained
by the `util/wind.hxx` collaborator: the circle manager includes that header
but binds no handle to any wind leaf and never reads one, which the
wind-independence theorem below makes explicit. -/
structure Blackboard where
  lon : ℝ
  lat : ℝ
  alt_agl : ℝ
  heading : ℝ
  groundtrack : ℝ
  groundspeed : ℝ
  coord_lon : ℝ
  coord_lat : ℝ
  direction : String
  radius_m : ℝ
  override_agl : ℝ
  override_speed : ℝ
  exit_agl : ℝ
  exit_heading : ℝ
  fcs_mode : String
  bank_limit : ℝ
  L1_period : ℝ
  ap_speed : ℝ
  ap_agl : ℝ
  ap_roll : ℝ
  target_course : ℝ
  wp_dist : ℝ
  wp_eta : ℝ
  wind_est : ℝ

/-- Construction-time parameters of the task, as parsed by the constructor
`AuraCircleMgr::AuraCircleMgr` (circle_mgr.cxx:22-81) from the config
branch: `direction`, `radius-m`, `altitude-agl-ft`, `speed-kt`. -/
structure CircleTask where
  tdirection : String
  tradius_m : ℝ
  target_agl_ft : ℝ
  target_speed_kt : ℝ

/-- Modelled from the spec: `SG_DEGREES_TO_RADIANS` comes from the missing
header include/globaldefs.h; the spec states courses are degrees and the
trig functions take radians. -/
noncomputable def SG_DEGREES_TO_RADIANS : ℝ := Real.pi / 180

/-- Modelled from the spec: `SG_RADIANS_TO_DEGREES` from the missing header
include/globaldefs.h (step 5 of the tick converts the bank to degrees). -/
noncomputable def SG_RADIANS_TO_DEGREES : ℝ := 180 / Real.pi

/-- Modelled from the spec: `SGD_PI` from the missing header
include/globaldefs.h. -/
noncomputable def SGD_PI : ℝ := Real.pi

/-- Literal constant `sqrt_of_2` (circle_mgr.cxx:230). -/
def sqrt_of_2 : ℝ := 1.41421356237309504880

/-- Constant `gravity` in m/s^2 (circle_mgr.cxx:240). -/
def gravity : ℝ := 9.81

/-- Direction sign read each tick (circle_mgr.cxx:163-167): -1 when the
direction string equals "right", +1 for every other string. -/
noncomputable def dirSign (direction_str : String) : ℝ :=
  if direction_str = "right" then -1 else 1

/-- One-shot course normalization as written at circle_mgr.cxx:180-181,
208-209 and 217-218: subtract 360 once when above 360, then add 360 once
when below 0. -/
noncomputable def norm360 (x : ℝ) : ℝ :=
  let y := if x > 360 then x - 360 else x
  if y < 0 then y + 360 else y

/-- Signed course-error normalization (circle_mgr.cxx:234-235): add 360
once when below -180, then subtract 360 once when above 180. -/
noncomputable def signedErr (e : ℝ) : ℝ :=
  let y := if e < -180 then e + 360 else e
  if y > 180 then y - 360 else y

/-- Radius sanity clamp (circle_mgr.cxx:198-199): radii below 10 m become
10 m. -/
noncomputable def clampRadius (r : ℝ) : ℝ :=
  if r < 10 then 10 else r

/-- Symmetric bank saturation (circle_mgr.cxx:244-250): clamp below to
-bank_limit_deg, then above to +bank_limit_deg. -/
noncomputable def satBank (bank_limit_deg x : ℝ) : ℝ :=
  let y := if x < -bank_limit_deg then -bank_limit_deg else x
  if y > bank_limit_deg then bank_limit_deg else y

/-- Target ground-track course of a tick (circle_mgr.cxx:178-219): the
ideal tangent course `course_deg + direction * 90` normalized, biased
outward when inside the circle and inward (capped at one radius of error)
when outside. -/
noncomputable def targetCrs (direction course_deg dist_m radius_m : ℝ) : ℝ :=
  let ideal_crs := norm360 (course_deg + direction * 90)
  if dist_m < radius_m then
    norm360 (ideal_crs + direction * 90 * (1 - dist_m / radius_m))
  else if dist_m > radius_m then
    let offset_dist0 := dist_m - radius_m
    let offset_dist := if offset_dist0 > radius_m then radius_m else offset_dist0
    norm360 (ideal_crs - direction * 90 * offset_dist / radius_m)
  else ideal_crs

/-- Commanded bank in degrees of a tick (circle_mgr.cxx:226-250): L1 track
acceleration plus centripetal feed-forward, mapped through -atan(a/g),
converted to degrees and saturated. -/
noncomputable def bankDeg (direction gs_mps L1_period radius_m course_error bank_limit_deg : ℝ) : ℝ :=
  let omegaA := sqrt_of_2 * SGD_PI / L1_period
  let VomegaA := gs_mps * omegaA
  let accel := 2 * Real.sin (course_error * SG_DEGREES_TO_RADIANS) * VomegaA
  let ideal_accel := direction * gs_mps * gs_mps / radius_m
  let total_accel := ideal_accel + accel
  let target_bank := -Real.arctan (total_accel / gravity)
  satBank bank_limit_deg (target_bank * SG_RADIANS_TO_DEGREES)

/-- One tick of `AuraCircleMgr::update` (circle_mgr.cxx:160-323).  `geo`
is the geodesic collaborator: applied to the circle centre and the vehicle
position it returns the bearing and the distance from the vehicle to the
centre (circle_mgr.cxx:169-176).  The tick publishes the target course,
the saturated bank, the distance and the ETA. -/
noncomputable def update (geo : ℝ → ℝ → ℝ → ℝ → ℝ × ℝ) (b : Blackboard) : Blackboard :=
  let direction := dirSign b.direction
  let course_deg := (geo b.coord_lon b.coord_lat b.lon b.lat).1
  let dist_m := (geo b.coord_lon b.coord_lat b.lon b.lat).2
  let radius_m := clampRadius b.radius_m
  let target_crs := targetCrs direction course_deg dist_m radius_m
  let course_error := signedErr (b.groundtrack - target_crs)
  let target_bank_deg := bankDeg direction b.groundspeed b.L1_period radius_m course_error b.bank_limit
  { b with
    target_course := target_crs
    ap_roll := target_bank_deg
    wp_dist := dist_m
    wp_eta := if b.groundspeed > 0.1 then dist_m / b.groundspeed else 0 }

/-- `AuraCircleMgr::bind` (circle_mgr.cxx:88-150): leaf handles are
resolved (leaf creation is implicit in the record model); the only writes
are the config-subtree overrides when the constructed values are positive
(circle_mgr.cxx:110-120) and the tuning defaults when the configured
values are below 0.1 (circle_mgr.cxx:130-139). -/
noncomputable def bind (t : CircleTask) (b : Blackboard) : Blackboard :=
  let b1 := if t.target_agl_ft > 0 then { b with override_agl := t.target_agl_ft } else b
  let b2 := if t.target_speed_kt > 0 then { b1 with override_speed := t.target_speed_kt } else b1
  let b3 := if b2.bank_limit < 0.1 then { b2 with bank_limit := 20 } else b2
  if b3.L1_period < 0.1 then { b3 with L1_period := 25 } else b3

/-- Constant geodesic collaborator used by the closed witness and
counterexample theorems: returns the given bearing and distance for every
pair of points. -/
noncomputable def geoConst (crs dist : ℝ) : ℝ → ℝ → ℝ → ℝ → ℝ × ℝ :=
  fun _ _ _ _ => (crs, dist)

/-- Concrete blackboard state for closed theorems; individual leaves are
overridden per theorem. -/
noncomputable def bb : Blackboard :=
  { lon := 0, lat := 0, alt_agl := 0, heading := 0, groundtrack := 0,
    groundspeed := 0, coord_lon := 0, coord_lat := 0, direction := "left",
    radius_m := 100, override_agl := 0, override_speed := 0, exit_agl := 0,
    exit_heading := 0, fcs_mode := "", bank_limit := 20, L1_period := 25,
    ap_speed := 0, ap_agl := 0, ap_roll := 0, target_course := 0,
    wp_dist := 0, wp_eta := 0, wind_est := 0 }

theorem update_target_course_eq (geo : ℝ → ℝ → ℝ → ℝ → ℝ × ℝ) (b : Blackboard) :
    (update geo b).target_course =
      targetCrs (dirSign b.direction) (geo b.coord_lon b.coord_lat b.lon b.lat).1
        (geo b.coord_lon b.coord_lat b.lon b.lat).2 (clampRadius b.radius_m) := rfl

theorem update_ap_roll_eq (geo : ℝ → ℝ → ℝ → ℝ → ℝ × ℝ) (b : Blackboard) :
    (update geo b).ap_roll =
      bankDeg (dirSign b.direction) b.groundspeed b.L1_period (clampRadius b.radius_m)
        (signedErr (b.groundtrack -
          targetCrs (dirSign b.direction) (geo b.coord_lon b.coord_lat b.lon b.lat).1
            (geo b.coord_lon b.coord_lat b.lon b.lat).2 (clampRadius b.radius_m)))
        b.bank_limit := rfl

theorem update_wp_dist_eq (geo : ℝ → ℝ → ℝ → ℝ → ℝ × ℝ) (b : Blackboard) :
    (update geo b).wp_dist = (geo b.coord_lon b.coord_lat b.lon b.lat).2 := rfl

theorem update_wp_eta_eq (geo : ℝ → ℝ → ℝ → ℝ → ℝ × ℝ) (b : Blackboard) :
    (update geo b).wp_eta =
      if b.groundspeed > 0.1 then (geo b.coord_lon b.coord_lat b.lon b.lat).2 / b.groundspeed
      else 0 := rfl

theorem dirSign_cases (s : String) : dirSign s = 1 ∨ dirSign s = -1 := by
  unfold dirSign
  split_ifs <;> simp

theorem dirSign_eq_neg_one_iff (s : String) : dirSign s = -1 ↔ s = "right" := by
  unfold dirSign
  split_ifs with h
  · simp [h]
  · simp [h]
    norm_num

theorem norm360_mem {x : ℝ} (h1 : -360 ≤ x) (h2 : x ≤ 720) :
    0 ≤ norm360 x ∧ norm360 x ≤ 360 := by
  simp only [norm360]
  split_ifs <;> constructor <;> linarith

theorem satBank_mem {L : ℝ} (hL : 0 ≤ L) (x : ℝ) :
    -L ≤ satBank L x ∧ satBank L x ≤ L := by
  simp only [satBank]
  split_ifs <;> constructor <;> linarith

theorem clampRadius_ge (r : ℝ) : 10 ≤ clampRadius r := by
  unfold clampRadius
  split_ifs <;> linarith

theorem clampRadius_pos (r : ℝ) : 0 < clampRadius r :=
  lt_of_lt_of_le (by norm_num) (clampRadius_ge r)

theorem bankDeg_mem {L : ℝ} (hL : 0 ≤ L) (d gs p R ce : ℝ) :
    -L ≤ bankDeg d gs p R ce L ∧ bankDeg d gs p R ce L ≤ L := by
  simp only [bankDeg]
  exact satBank_mem hL _

/-- C10: a tick of `update` writes only the four output leaves
(target-groundtrack-deg, target-roll-deg, wp-dist-m, wp-eta-sec); every
other bound leaf — vehicle state, circle configuration (centre, direction,
radius-m), tuning (bank-limit-deg, L1-period), the overrides, the exit
parameters, the fcs mode and the wind leaf — is unchanged, so repeated
ticks read back exactly the configuration they started with. -/
theorem update_frame (geo : ℝ → ℝ → ℝ → ℝ → ℝ × ℝ) (b : Blackboard) :
    (update geo b).lon = b.lon ∧ (update geo b).lat = b.lat ∧
    (update geo b).alt_agl = b.alt_agl ∧ (update geo b).heading = b.heading ∧
    (update geo b).groundtrack = b.groundtrack ∧
    (update geo b).groundspeed = b.groundspeed ∧
    (update geo b).coord_lon = b.coord_lon ∧
    (update geo b).coord_lat = b.coord_lat ∧
    (update geo b).direction = b.direction ∧
    (update geo b).radius_m = b.radius_m ∧
    (update geo b).override_agl = b.override_agl ∧
    (update geo b).override_speed = b.override_speed ∧
    (update geo b).exit_agl = b.exit_agl ∧
    (update geo b).exit_heading = b.exit_heading ∧
    (update geo b).fcs_mode = b.fcs_mode ∧
    (update geo b).bank_limit = b.bank_limit ∧
    (update geo b).L1_period = b.L1_period ∧
    (update geo b).ap_speed = b.ap_speed ∧
    (update geo b).ap_agl = b.ap_agl ∧
    (update geo b).wind_est = b.wind_est :=
  ⟨rfl, rfl, rfl, rfl, rfl, rfl, rfl, rfl, rfl, rfl, rfl, rfl, rfl, rfl, rfl,
    rfl, rfl, rfl, rfl, rfl⟩

/-- C8: the direction sign used by a tick is -1 exactly when the direction
string read from the blackboard equals "right"; every other string
(including unrecognized values or the empty string) yields sign +1. -/
theorem update_direction_sign (s : String) :
    (dirSign s = -1 ↔ s = "right") ∧ (s ≠ "right" → dirSign s = 1) := by
  constructor
  · exact dirSign_eq_neg_one_iff s
  · intro h
    unfold dirSign
    rw [if_neg h]

/-- C8 witness: the unrecognized direction value "banana" yields sign +1. -/
theorem update_direction_sign_witness :
    "banana" ≠ "right" ∧ dirSign "banana" = 1 :=
  ⟨by decide, (update_direction_sign "banana").2 (by decide)⟩

/-- C4: the tick is wind-independent.  The radius used by the lateral law
is the clamp of the configured radius, and every published output of
`update` is unchanged when only the wind-estimate leaf differs: the code
never reads any wind value, contradicting both the spec and the source
file's own header comment ("Compensate circle track using wind
estimate"). -/
theorem update_wind_independent (geo : ℝ → ℝ → ℝ → ℝ → ℝ × ℝ)
    (b : Blackboard) (w1 w2 : ℝ) :
    clampRadius ({ b with wind_est := w1 } : Blackboard).radius_m =
      clampRadius b.radius_m ∧
    (update geo { b with wind_est := w1 }).ap_roll =
      (update geo { b with wind_est := w2 }).ap_roll ∧
    (update geo { b with wind_est := w1 }).target_course =
      (update geo { b with wind_est := w2 }).target_course ∧
    (update geo { b with wind_est := w1 }).wp_dist =
      (update geo { b with wind_est := w2 }).wp_dist ∧
    (update geo { b with wind_est := w1 }).wp_eta =
      (update geo { b with wind_est := w2 }).wp_eta :=
  ⟨rfl, rfl, rfl, rfl, rfl⟩

/-- C6: every tick publishes the geodesic distance to the centre as
wp-dist-m; it publishes dist/gs as wp-eta-sec when the ground speed
exceeds 0.1 m/s and 0 otherwise. -/
theorem update_eta (geo : ℝ → ℝ → ℝ → ℝ → ℝ × ℝ) (b : Blackboard) :
    (update geo b).wp_dist = (geo b.coord_lon b.coord_lat b.lon b.lat).2 ∧
    (b.groundspeed > 0.1 →
      (update geo b).wp_eta =
        (geo b.coord_lon b.coord_lat b.lon b.lat).2 / b.groundspeed) ∧
    (b.groundspeed ≤ 0.1 → (update geo b).wp_eta = 0) := by
  refine ⟨rfl, ?_, ?_⟩
  · intro h
    rw [update_wp_eta_eq, if_pos h]
  · intro h
    rw [update_wp_eta_eq, if_neg (not_lt.mpr h)]

/-- C6 witness: at ground speed 2 m/s and distance 100 m the published ETA
is 50 s; at ground speed 0.05 m/s it is 0. -/
theorem update_eta_witness :
    (2:ℝ) > 0.1 ∧
    (update (geoConst 0 100) { bb with groundspeed := 2 }).wp_eta = 100 / 2 ∧
    (0.05:ℝ) ≤ 0.1 ∧
    (update (geoConst 0 100) { bb with groundspeed := 0.05 }).wp_eta = 0 :=
  ⟨by norm_num, (update_eta (geoConst 0 100) { bb with groundspeed := 2 }).2.1 (by norm_num),
    by norm_num, (update_eta (geoConst 0 100) { bb with groundspeed := 0.05 }).2.2 (by norm_num)⟩

/-- C1 (amended): whenever the bank limit read from the blackboard is
nonnegative, the commanded bank published by a tick lies in
[-bank_limit_deg, +bank_limit_deg], for every geodesic result and every
blackboard state. -/
theorem update_bank_saturated (geo : ℝ → ℝ → ℝ → ℝ → ℝ × ℝ) (b : Blackboard)
    (h : 0 ≤ b.bank_limit) :
    -b.bank_limit ≤ (update geo b).ap_roll ∧
      (update geo b).ap_roll ≤ b.bank_limit := by
  rw [update_ap_roll_eq]
  exact bankDeg_mem h _ _ _ _ _

/-- C1 witness: with bank limit 20 the published bank lies in [-20, 20]. -/
theorem update_bank_saturated_witness :
    0 ≤ bb.bank_limit ∧
      (-bb.bank_limit ≤ (update (geoConst 0 100) bb).ap_roll ∧
        (update (geoConst 0 100) bb).ap_roll ≤ bb.bank_limit) :=
  ⟨by norm_num [bb], update_bank_saturated (geoConst 0 100) bb (by norm_num [bb])⟩

/-- C1 counterexample: with the bank limit leaf holding -5 the published
bank does not lie in [-(-5), -5] (that interval is empty), so the claim
fails for a negative bank limit read from the blackboard. -/
theorem update_bank_saturated_cx :
    ¬ (-({ bb with bank_limit := -5 } : Blackboard).bank_limit ≤
          (update (geoConst 0 100) { bb with bank_limit := -5 }).ap_roll ∧
        (update (geoConst 0 100) { bb with bank_limit := -5 }).ap_roll ≤
          ({ bb with bank_limit := -5 } : Blackboard).bank_limit) := by
  intro h
  have h1 := h.1
  have h2 := h.2
  have e : ({ bb with bank_limit := -5 } : Blackboard).bank_limit = -5 := rfl
  rw [e] at h1 h2
  linarith

theorem dirSign_left_of_ne {s : String} (h : ¬ s = "right") : dirSign s = 1 := by
  unfold dirSign
  rw [if_neg h]

theorem dirSign_right : dirSign "right" = -1 := by
  unfold dirSign
  rw [if_pos rfl]

theorem targetCrs_mem {d crs dist R : ℝ} (hd : d = 1 ∨ d = -1) (h0 : 0 ≤ crs)
    (h1 : crs < 360) (h2 : 0 ≤ dist) (hR : 0 < R) :
    0 ≤ targetCrs d crs dist R ∧ targetCrs d crs dist R ≤ 360 := by
  have hd90a : -90 ≤ d * 90 := by rcases hd with h | h <;> rw [h] <;> norm_num
  have hd90b : d * 90 ≤ 90 := by rcases hd with h | h <;> rw [h] <;> norm_num
  have hideal := norm360_mem (show -360 ≤ crs + d * 90 by linarith)
    (show crs + d * 90 ≤ 720 by linarith)
  simp only [targetCrs]
  set od := if dist - R > R then R else dist - R with hod
  split_ifs with hin hout
  · have hfa : 0 ≤ dist / R := div_nonneg h2 hR.le
    have hfb : dist / R ≤ 1 := (div_le_one hR).2 (le_of_lt hin)
    have hoffa : -90 ≤ d * 90 * (1 - dist / R) := by
      rcases hd with h | h <;> rw [h] <;> nlinarith
    have hoffb : d * 90 * (1 - dist / R) ≤ 90 := by
      rcases hd with h | h <;> rw [h] <;> nlinarith
    exact norm360_mem (by linarith [hideal.1]) (by linarith [hideal.2])
  · have hoda : 0 ≤ od := by
      rw [hod]; split_ifs <;> linarith
    have hodb : od ≤ R := by
      rw [hod]; split_ifs <;> linarith
    have hfa : 0 ≤ od / R := div_nonneg hoda hR.le
    have hfb : od / R ≤ 1 := (div_le_one hR).2 hodb
    have hw : d * 90 * od / R = d * 90 * (od / R) := mul_div_assoc _ _ _
    have hoffa : -90 ≤ d * 90 * od / R := by
      rw [hw]; rcases hd with h | h <;> rw [h] <;> nlinarith
    have hoffb : d * 90 * od / R ≤ 90 := by
      rw [hw]; rcases hd with h | h <;> rw [h] <;> nlinarith
    exact norm360_mem (by linarith [hideal.1]) (by linarith [hideal.2])
  · exact hideal

/-- C2 (amended): for every bearing returned by the geodesic helper in
[0, 360), every nonnegative distance, every direction string and every
configured radius, the published target ground-track course lies in the
closed interval [0, 360]; the value 360 itself is attained (see the
counterexample), so the half-open interval of the claim fails only at that
endpoint. -/
theorem update_course_range (geo : ℝ → ℝ → ℝ → ℝ → ℝ × ℝ) (b : Blackboard)
    (h0 : 0 ≤ (geo b.coord_lon b.coord_lat b.lon b.lat).1)
    (h1 : (geo b.coord_lon b.coord_lat b.lon b.lat).1 < 360)
    (h2 : 0 ≤ (geo b.coord_lon b.coord_lat b.lon b.lat).2) :
    0 ≤ (update geo b).target_course ∧ (update geo b).target_course ≤ 360 := by
  rw [update_target_course_eq]
  exact targetCrs_mem (dirSign_cases b.direction) h0 h1 h2 (clampRadius_pos b.radius_m)

/-- C2 witness: bearing 45, distance 200, direction left, radius 100: the
published course is inside [0, 360]. -/
theorem update_course_range_witness :
    0 ≤ (geoConst 45 200 bb.coord_lon bb.coord_lat bb.lon bb.lat).1 ∧
    (geoConst 45 200 bb.coord_lon bb.coord_lat bb.lon bb.lat).1 < 360 ∧
    0 ≤ (geoConst 45 200 bb.coord_lon bb.coord_lat bb.lon bb.lat).2 ∧
    (0 ≤ (update (geoConst 45 200) bb).target_course ∧
      (update (geoConst 45 200) bb).target_course ≤ 360) := by
  have p0 : 0 ≤ (geoConst 45 200 bb.coord_lon bb.coord_lat bb.lon bb.lat).1 := by
    norm_num [geoConst]
  have p1 : (geoConst 45 200 bb.coord_lon bb.coord_lat bb.lon bb.lat).1 < 360 := by
    norm_num [geoConst]
  have p2 : 0 ≤ (geoConst 45 200 bb.coord_lon bb.coord_lat bb.lon bb.lat).2 := by
    norm_num [geoConst]
  exact ⟨p0, p1, p2, update_course_range (geoConst 45 200) bb p0 p1 p2⟩

/-- C2 counterexample: bearing 270 with direction left, on the circle
(distance = radius = 100): the published course is exactly 360, which is
not strictly below 360, so the half-open interval [0, 360) of the claim
fails. -/
theorem update_course_range_cx :
    (update (geoConst 270 100) bb).target_course = 360 ∧
      ¬ (update (geoConst 270 100) bb).target_course < 360 := by
  have e : (update (geoConst 270 100) bb).target_course = 360 := by
    rw [update_target_course_eq]
    have hd : dirSign bb.direction = 1 := dirSign_left_of_ne (by decide)
    rw [hd]
    norm_num [geoConst, bb, targetCrs, norm360, clampRadius]
  exact ⟨e, by rw [e]; norm_num⟩

theorem signedErr_zero : signedErr 0 = 0 := by
  simp only [signedErr]
  norm_num

/-- C3: steady-state circle law.  If the geodesic distance to the centre
equals the clamped radius, the ground track equals the ideal tangent
course (bearing + sign * 90, normalized), and the ground speed is
positive, then the L1 track-error acceleration term is exactly 0 and the
published bank equals -atan(sign * V^2 / (R * 9.81)) converted to degrees
and saturated to the bank limit. -/
theorem update_steady_state (geo : ℝ → ℝ → ℝ → ℝ → ℝ × ℝ) (b : Blackboard)
    (hdist : (geo b.coord_lon b.coord_lat b.lon b.lat).2 = clampRadius b.radius_m)
    (hgt : b.groundtrack =
      norm360 ((geo b.coord_lon b.coord_lat b.lon b.lat).1 + dirSign b.direction * 90))
    (hV : 0 < b.groundspeed) :
    2 * Real.sin (signedErr (b.groundtrack - (update geo b).target_course) *
        SG_DEGREES_TO_RADIANS) *
      (b.groundspeed * (sqrt_of_2 * SGD_PI / b.L1_period)) = 0 ∧
    (update geo b).ap_roll = satBank b.bank_limit
      (-Real.arctan (dirSign b.direction * b.groundspeed ^ 2 /
          (clampRadius b.radius_m * 9.81)) * SG_RADIANS_TO_DEGREES) := by
  have htcrs : targetCrs (dirSign b.direction)
      (geo b.coord_lon b.coord_lat b.lon b.lat).1
      (geo b.coord_lon b.coord_lat b.lon b.lat).2 (clampRadius b.radius_m) =
      b.groundtrack := by
    simp only [targetCrs, hdist]
    rw [if_neg (lt_irrefl _), if_neg (lt_irrefl _)]
    exact hgt.symm
  have htc : (update geo b).target_course = b.groundtrack := by
    rw [update_target_course_eq]
    exact htcrs
  constructor
  · rw [htc, sub_self, signedErr_zero, zero_mul, Real.sin_zero]
    ring
  · rw [update_ap_roll_eq, htcrs, sub_self, signedErr_zero]
    simp only [bankDeg]
    rw [zero_mul, Real.sin_zero]
    simp only [mul_zero, zero_mul, add_zero]
    have harg : dirSign b.direction * b.groundspeed * b.groundspeed /
        clampRadius b.radius_m / gravity =
        dirSign b.direction * b.groundspeed ^ 2 / (clampRadius b.radius_m * 9.81) := by
      unfold gravity
      rw [div_div]
      ring
    rw [harg]

/-- Concrete blackboard for the steady-state witness: on a circle of
radius 100 m with bearing 0 to the centre, direction left, ground track 90
and ground speed 10 m/s. -/
noncomputable def bbS : Blackboard :=
  { bb with groundtrack := 90, groundspeed := 10 }

/-- C3 witness: the steady-state law applied on the concrete circle. -/
theorem update_steady_state_witness :
    (geoConst 0 100 bbS.coord_lon bbS.coord_lat bbS.lon bbS.lat).2 =
      clampRadius bbS.radius_m ∧
    bbS.groundtrack =
      norm360 ((geoConst 0 100 bbS.coord_lon bbS.coord_lat bbS.lon bbS.lat).1 +
        dirSign bbS.direction * 90) ∧
    0 < bbS.groundspeed ∧
    (2 * Real.sin (signedErr (bbS.groundtrack -
          (update (geoConst 0 100) bbS).target_course) * SG_DEGREES_TO_RADIANS) *
        (bbS.groundspeed * (sqrt_of_2 * SGD_PI / bbS.L1_period)) = 0 ∧
      (update (geoConst 0 100) bbS).ap_roll = satBank bbS.bank_limit
        (-Real.arctan (dirSign bbS.direction * bbS.groundspeed ^ 2 /
            (clampRadius bbS.radius_m * 9.81)) * SG_RADIANS_TO_DEGREES)) := by
  have p1 : (geoConst 0 100 bbS.coord_lon bbS.coord_lat bbS.lon bbS.lat).2 =
      clampRadius bbS.radius_m := by
    norm_num [geoConst, bbS, bb, clampRadius]
  have p2 : bbS.groundtrack =
      norm360 ((geoConst 0 100 bbS.coord_lon bbS.coord_lat bbS.lon bbS.lat).1 +
        dirSign bbS.direction * 90) := by
    have hd : dirSign bbS.direction = 1 := dirSign_left_of_ne (by decide)
    rw [hd]
    norm_num [geoConst, bbS, bb, norm360]
  have p3 : 0 < bbS.groundspeed := by norm_num [bbS, bb]
  exact ⟨p1, p2, p3, update_steady_state (geoConst 0 100) bbS p1 p2 p3⟩

theorem targetCrs_far {d crs dist R : ℝ} (hd : d = 1 ∨ d = -1) (h0 : 0 ≤ crs)
    (h1 : crs < 360) (hR : 0 < R) (h2 : 2 * R ≤ dist) :
    targetCrs d crs dist R = crs ∨
      (d = -1 ∧ crs = 0 ∧ targetCrs d crs dist R = 360) := by
  have hout : R < dist := by linarith
  have hnin : ¬ dist < R := by linarith
  have htc : targetCrs d crs dist R = norm360 (norm360 (crs + d * 90) - d * 90) := by
    simp only [targetCrs]
    rw [if_neg hnin, if_pos hout]
    have hodeq : (if dist - R > R then R else dist - R) = R := by
      split_ifs with h
      · rfl
      · linarith
    rw [hodeq, mul_div_assoc, div_self (ne_of_gt hR), mul_one]
  rcases hd with h | h
  · subst h
    left
    rw [htc]
    simp only [norm360]
    split_ifs <;> linarith
  · subst h
    by_cases hc : crs = 0
    · subst hc
      right
      refine ⟨rfl, rfl, ?_⟩
      rw [htc]
      simp only [norm360]
      norm_num
    · left
      have hcpos : 0 < crs := lt_of_le_of_ne h0 (Ne.symm hc)
      rw [htc]
      simp only [norm360]
      split_ifs <;> linarith

/-- C5 (amended): far field.  When the distance to the centre is at least
twice the clamped radius, the published target course equals the bearing
from the vehicle to the centre — except in the single case direction
"right" with bearing 0, where the one-shot normalization publishes 360
(the same direction as bearing 0, but not the value 0). -/
theorem update_far_field (geo : ℝ → ℝ → ℝ → ℝ → ℝ × ℝ) (b : Blackboard)
    (crs dist : ℝ)
    (hgeo : geo b.coord_lon b.coord_lat b.lon b.lat = (crs, dist))
    (h0 : 0 ≤ crs) (h1 : crs < 360)
    (h2 : 2 * clampRadius b.radius_m ≤ dist) :
    (update geo b).target_course = crs ∨
      (dirSign b.direction = -1 ∧ crs = 0 ∧ (update geo b).target_course = 360) := by
  rw [update_target_course_eq, hgeo]
  exact targetCrs_far (dirSign_cases b.direction) h0 h1 (clampRadius_pos b.radius_m) h2

/-- C5 witness: bearing 45, direction left, distance 200, radius 100: the
published course equals the bearing 45. -/
theorem update_far_field_witness :
    geoConst 45 200 bb.coord_lon bb.coord_lat bb.lon bb.lat = (45, 200) ∧
    0 ≤ (45:ℝ) ∧ (45:ℝ) < 360 ∧
    2 * clampRadius bb.radius_m ≤ (200:ℝ) ∧
    ((update (geoConst 45 200) bb).target_course = 45 ∨
      (dirSign bb.direction = -1 ∧ (45:ℝ) = 0 ∧
        (update (geoConst 45 200) bb).target_course = 360)) := by
  have p0 : geoConst 45 200 bb.coord_lon bb.coord_lat bb.lon bb.lat = (45, 200) := rfl
  have p1 : 0 ≤ (45:ℝ) := by norm_num
  have p2 : (45:ℝ) < 360 := by norm_num
  have p3 : 2 * clampRadius bb.radius_m ≤ (200:ℝ) := by
    norm_num [bb, clampRadius]
  exact ⟨p0, p1, p2, p3, update_far_field (geoConst 45 200) bb 45 200 p0 p1 p2 p3⟩

/-- Concrete blackboard for the far-field counterexample: direction
"right". -/
noncomputable def bbR : Blackboard :=
  { bb with direction := "right" }

/-- C5 counterexample: direction right, bearing 0 to the centre, distance
200 with radius 100 (far field): the published course is 360, not the
bearing 0, so the claimed equality `normalize(ideal_crs - d * 90) =
brg_to_centre` fails for this input. -/
theorem update_far_field_cx :
    (update (geoConst 0 200) bbR).target_course = 360 ∧
      (update (geoConst 0 200) bbR).target_course ≠
        (geoConst 0 200 bbR.coord_lon bbR.coord_lat bbR.lon bbR.lat).1 := by
  have e : (update (geoConst 0 200) bbR).target_course = 360 := by
    rw [update_target_course_eq]
    have hd : dirSign bbR.direction = -1 := by
      show dirSign "right" = -1
      exact dirSign_right
    rw [hd]
    norm_num [geoConst, bbR, bb, targetCrs, norm360, clampRadius]
  refine ⟨e, ?_⟩
  rw [e]
  show (360:ℝ) ≠ (geoConst 0 200 bbR.coord_lon bbR.coord_lat bbR.lon bbR.lat).1
  norm_num [geoConst]

theorem bind_override_speed (t : CircleTask) (b : Blackboard) :
    (bind t b).override_speed =
      if t.target_speed_kt > 0 then t.target_speed_kt else b.override_speed := by
  simp only [bind]
  split_ifs <;> rfl

theorem bind_override_agl (t : CircleTask) (b : Blackboard) :
    (bind t b).override_agl =
      if t.target_agl_ft > 0 then t.target_agl_ft else b.override_agl := by
  simp only [bind]
  split_ifs <;> rfl

theorem bind_ap_speed (t : CircleTask) (b : Blackboard) :
    (bind t b).ap_speed = b.ap_speed := by
  simp only [bind]
  split_ifs <;> rfl

theorem bind_ap_agl (t : CircleTask) (b : Blackboard) :
    (bind t b).ap_agl = b.ap_agl := by
  simp only [bind]
  split_ifs <;> rfl

/-- C7 (amended): a positive speed-kt override is written at bind time to
the config-subtree leaf speed-kt, and a positive altitude-agl-ft override
to the config-subtree leaf altitude-agl-ft; the autopilot-settings leaves
target-speed-kt and target-agl-ft are written neither by bind nor by any
tick of update, and update also never rewrites the override leaves. -/
theorem bind_overrides (t : CircleTask) (b : Blackboard) :
    (t.target_speed_kt > 0 → (bind t b).override_speed = t.target_speed_kt) ∧
    (t.target_agl_ft > 0 → (bind t b).override_agl = t.target_agl_ft) ∧
    (bind t b).ap_speed = b.ap_speed ∧
    (bind t b).ap_agl = b.ap_agl ∧
    ∀ geo : ℝ → ℝ → ℝ → ℝ → ℝ × ℝ,
      (update geo b).ap_speed = b.ap_speed ∧
      (update geo b).ap_agl = b.ap_agl ∧
      (update geo b).override_speed = b.override_speed ∧
      (update geo b).override_agl = b.override_agl := by
  refine ⟨?_, ?_, bind_ap_speed t b, bind_ap_agl t b,
    fun geo => ⟨rfl, rfl, rfl, rfl⟩⟩
  · intro h
    rw [bind_override_speed, if_pos h]
  · intro h
    rw [bind_override_agl, if_pos h]

/-- Concrete task for the C7 theorems: positive overrides 25 kt and
300 ft. -/
noncomputable def taskW : CircleTask :=
  { tdirection := "left", tradius_m := 100, target_agl_ft := 300,
    target_speed_kt := 25 }

/-- C7 witness: binding the task with overrides 25 kt / 300 ft writes the
config-subtree leaves and leaves the autopilot-settings leaves alone. -/
theorem bind_overrides_witness :
    taskW.target_speed_kt > 0 ∧ (bind taskW bb).override_speed = taskW.target_speed_kt ∧
    taskW.target_agl_ft > 0 ∧ (bind taskW bb).override_agl = taskW.target_agl_ft ∧
    (bind taskW bb).ap_speed = bb.ap_speed ∧
    (bind taskW bb).ap_agl = bb.ap_agl := by
  have hs : taskW.target_speed_kt > 0 := by norm_num [taskW]
  have ha : taskW.target_agl_ft > 0 := by norm_num [taskW]
  have h := bind_overrides taskW bb
  exact ⟨hs, h.1 hs, ha, h.2.1 ha, h.2.2.1, h.2.2.2.1⟩

/-- Concrete task for the C7 counterexample: speed override 5 kt. -/
noncomputable def taskCx : CircleTask :=
  { tdirection := "left", tradius_m := 100, target_agl_ft := 0,
    target_speed_kt := 5 }

/-- C7 counterexample: constructed with the non-zero speed override 5 kt,
bind leaves the autopilot-settings leaf target-speed-kt at its prior value
0 — it does not write the override there (the write goes to the
config-subtree leaf speed-kt instead). -/
theorem bind_overrides_cx :
    taskCx.target_speed_kt = 5 ∧
    (bind taskCx bb).ap_speed = 0 ∧
    (bind taskCx bb).ap_speed ≠ taskCx.target_speed_kt ∧
    (bind taskCx bb).override_speed = 5 := by
  have h1 : taskCx.target_speed_kt = 5 := rfl
  have h2 : (bind taskCx bb).ap_speed = 0 := by
    rw [bind_ap_speed]
    norm_num [bb]
  have h4 : (bind taskCx bb).override_speed = 5 := by
    rw [bind_override_speed]
    norm_num [taskCx]
  refine ⟨h1, h2, ?_, h4⟩
  rw [h1, h2]
  norm_num

/-- C9: course-wrap equivalence.  On a circle that makes the published
target course equal 1 (bearing 271, direction left, on the circle), the
signed normalization sends both 359 - 1 and -1 - 1 to -2, and the tick
publishes the same commanded bank for ground track 359 as for ground
track -1, all other leaves held equal. -/
theorem update_course_wrap (geo : ℝ → ℝ → ℝ → ℝ → ℝ × ℝ) (b : Blackboard)
    (hdir : b.direction = "left")
    (hgeo : geo b.coord_lon b.coord_lat b.lon b.lat =
      (271, clampRadius b.radius_m)) :
    signedErr (359 - 1) = -2 ∧ signedErr (-1 - 1) = -2 ∧
      (update geo { b with groundtrack := 359 }).ap_roll =
        (update geo { b with groundtrack := -1 }).ap_roll := by
  have hd : dirSign b.direction = 1 := by
    rw [hdir]
    exact dirSign_left_of_ne (by decide)
  have htcrs : targetCrs (dirSign b.direction)
      (geo b.coord_lon b.coord_lat b.lon b.lat).1
      (geo b.coord_lon b.coord_lat b.lon b.lat).2 (clampRadius b.radius_m) = 1 := by
    rw [hd, hgeo]
    simp only [targetCrs]
    rw [if_neg (lt_irrefl _), if_neg (lt_irrefl _)]
    norm_num [norm360]
  refine ⟨by norm_num [signedErr], by norm_num [signedErr], ?_⟩
  rw [update_ap_roll_eq, update_ap_roll_eq]
  simp only []
  rw [htcrs]
  have herr : signedErr ((359:ℝ) - 1) = signedErr ((-1:ℝ) - 1) := by
    norm_num [signedErr]
  rw [herr]

/-- C9 witness: the course-wrap equivalence on the concrete circle with
bearing 271 and radius 100. -/
theorem update_course_wrap_witness :
    bb.direction = "left" ∧
    geoConst 271 100 bb.coord_lon bb.coord_lat bb.lon bb.lat =
      (271, clampRadius bb.radius_m) ∧
    (signedErr (359 - 1) = -2 ∧ signedErr (-1 - 1) = -2 ∧
      (update (geoConst 271 100) { bb with groundtrack := 359 }).ap_roll =
        (update (geoConst 271 100) { bb with groundtrack := -1 }).ap_roll) := by
  have p1 : bb.direction = "left" := rfl
  have p2 : geoConst 271 100 bb.coord_lon bb.coord_lat bb.lon bb.lat =
      (271, clampRadius bb.radius_m) := by
    norm_num [geoConst, bb, clampRadius]
  exact ⟨p1, p2, update_course_wrap (geoConst 271 100) bb p1 p2⟩

end CircleMgr
